import Mathlib

/-!
Shallow embedding of the Amplifier Apple Music backend (Firebase Functions,
TypeScript) and proofs about its session state machine, rate limiter,
cleanup sweep and credential issuer.

Sources embedded:
* `src/index.ts` (session variant): `checkRateLimit`, `initializeSession`,
  `completeAuthentication`, `getSessionStatus`, `cleanupExpiredSessions`.
* `src/apple-music-auth.ts`: both revisions of `AppleMusicAuth`
  (`getPrivateKey`-based and `loadConfig`-based) and `generateDeveloperToken`.

Times are naturals: milliseconds since epoch for the session/rate-limit code
(`Date.now()`), seconds for the JWT claim set (`Math.floor(Date.now()/1000)`).
The Firestore document store and the in-process rate-limit map are embedded as
association lists; identity-token verification (`admin.auth().verifyIdToken`)
and the filesystem are abstract function parameters.
-/

namespace Amplifier

/-! ## Rate limiter (src/index.ts, lines 52-71)

`const rateLimitStore = new Map<string, { count: number; resetTime: number }>()`
-/

structure RateRecord where
  count : Nat
  resetTime : Nat
deriving DecidableEq, Repr

/-- The in-process rate-limit map, as an association list keyed by the
string identifier. -/
abbrev RateStore := List (String × RateRecord)

/-- `Map.get` on the rate-limit store. -/
def rateGet (s : RateStore) (k : String) : Option RateRecord :=
  match s with
  | [] => none
  | (k', v) :: rest => if k' = k then some v else rateGet rest k

/-- `Map.set` on the rate-limit store: replaces the record for `k` in place,
or appends a fresh binding. -/
def rateSet (s : RateStore) (k : String) (v : RateRecord) : RateStore :=
  match s with
  | [] => [(k, v)]
  | (k', v') :: rest => if k' = k then (k, v) :: rest else (k', v') :: rateSet rest k v

/-- `checkRateLimit(identifier, limit, windowMs)` from src/index.ts:
```
const record = rateLimitStore.get(identifier);
if (!record || now > record.resetTime) {
  rateLimitStore.set(identifier, { count: 1, resetTime: now + windowMs });
  return true;
}
if (record.count >= limit) return false;
record.count++;
return true;
```
Returned pair: the boolean result and the store after the call. -/
def checkRateLimit (s : RateStore) (identifier : String) (limit windowMs now : Nat) :
    Bool × RateStore :=
  match rateGet s identifier with
  | none => (true, rateSet s identifier ⟨1, now + windowMs⟩)
  | some record =>
    if now > record.resetTime then
      (true, rateSet s identifier ⟨1, now + windowMs⟩)
    else if record.count ≥ limit then
      (false, s)
    else
      (true, rateSet s identifier ⟨record.count + 1, record.resetTime⟩)

/-- A sequence of `checkRateLimit` calls on one key at the given times;
returns the list of boolean results and the final store. -/
def runRateCalls (s : RateStore) (identifier : String) (limit windowMs : Nat) :
    List Nat → List Bool × RateStore
  | [] => ([], s)
  | t :: ts =>
    let r := checkRateLimit s identifier limit windowMs t
    let rest := runRateCalls r.2 identifier limit windowMs ts
    (r.1 :: rest.1, rest.2)

/-! Basic lemmas about the association-list store. -/

/-! ## Session store (Firestore collection `auth_sessions`, src/index.ts)

`initializeSession` writes
`{sessionId, firebaseUserId, userEmail, status: 'pending', createdAt,
  expiresAt: now + 5min, authProvider}` via `sessionRef.set`;
`completeAuthentication` merges
`{status: 'success', completedAt, userAccessToken, expiresAt: now + 24h}`
(or `{status: 'error', error, completedAt}` in its catch block) via
`sessionRef.update`. -/

structure Session where
  sessionId : String
  firebaseUserId : String
  userEmail : String
  status : String
  createdAt : Nat
  expiresAt : Nat
  authProvider : String
  completedAt : Option Nat
  userAccessToken : Option String
  errorMsg : Option String
deriving DecidableEq, Repr

/-- The `auth_sessions` collection, keyed by document id (= sessionId). -/
abbrev SessionStore := List (String × Session)

/-- `sessionRef.get` (point lookup by document id). -/
def getDoc (ss : SessionStore) (k : String) : Option Session :=
  match ss with
  | [] => none
  | (k', v) :: rest => if k' = k then some v else getDoc rest k

/-- `sessionRef.set` / `sessionRef.update` on an existing doc: replaces the
document at `k`, or creates it (for `set` on a fresh id). -/
def setDoc (ss : SessionStore) (k : String) (v : Session) : SessionStore :=
  match ss with
  | [] => [(k, v)]
  | (k', v') :: rest => if k' = k then (k, v) :: rest else (k', v') :: setDoc rest k v

/-- Identity verification (`admin.auth().verifyIdToken`): maps a Firebase id
token to the decoded user, abstracted as `uid × email × provider`. `none`
models a failed verification. -/
abbrev Verifier := String → Option (String × String × String)

/-- `5 * 60 * 1000` ms — the Pending window set by `initializeSession`. -/
def fiveMinutesMs : Nat := 5 * 60 * 1000

/-- `24 * 60 * 60 * 1000` ms — the post-success window set by
`completeAuthentication`. -/
def twentyFourHoursMs : Nat := 24 * 60 * 60 * 1000

inductive InitResult where
  | rateLimited
  | unauthorized
  | ok
deriving DecidableEq, Repr

/-- `initializeSession` (src/index.ts): after method and body validation,
1. `checkRateLimit('init_session_' + sessionId, 5, 300000)` — 429 on denial;
2. `verifyFirebaseToken` — 401 on failure;
3. `sessionRef.set` of a fresh pending record with `expiresAt = now + 5min`.
Returns the response outcome, the rate-limit store and the session store
after the call. -/
def initializeSession (rs : RateStore) (ss : SessionStore) (verify : Verifier)
    (sessionId firebaseIdToken : String) (now : Nat) :
    InitResult × RateStore × SessionStore :=
  let rl := checkRateLimit rs ("init_session_" ++ sessionId) 5 300000 now
  if rl.1 = false then
    (.rateLimited, rl.2, ss)
  else
    match verify firebaseIdToken with
    | none => (.unauthorized, rl.2, ss)
    | some (uid, email, provider) =>
      let sessionData : Session :=
        { sessionId := sessionId
          firebaseUserId := uid
          userEmail := email
          status := "pending"
          createdAt := now
          expiresAt := now + fiveMinutesMs
          authProvider := provider
          completedAt := none
          userAccessToken := none
          errorMsg := none }
      (.ok, rl.2, setDoc ss sessionId sessionData)

inductive CompleteResult where
  | rateLimited
  | unauthorized
  | notFound
  | forbidden
  | expired
  | ok (userAccessToken : String)
  | internalError
deriving DecidableEq, Repr

/-- `completeAuthentication` (src/index.ts): after method and body validation,
1. `checkRateLimit('complete_auth_' + sessionId, 3, 300000)` — 429 on denial;
2. `verifyFirebaseToken` — 401 on failure;
3. `sessionRef.get` — 404 if absent;
4. ownership check `sessionData.firebaseUserId !== user.uid` — 403;
5. expiry check `sessionData.expiresAt < new Date()` — 410;
6. `generateDeveloperToken()`; on success `sessionRef.update` with
   `status='success'`, the token and `expiresAt = now + 24h`; if it throws,
   the catch block updates `status='error'` with the message (no `expiresAt`
   change) and responds 500.
`issuer` is the outcome of `generateDeveloperToken()` at this call. -/
def completeAuthentication (rs : RateStore) (ss : SessionStore) (verify : Verifier)
    (sessionId firebaseIdToken : String) (issuer : Except String String) (now : Nat) :
    CompleteResult × RateStore × SessionStore :=
  let rl := checkRateLimit rs ("complete_auth_" ++ sessionId) 3 300000 now
  if rl.1 = false then
    (.rateLimited, rl.2, ss)
  else
    match verify firebaseIdToken with
    | none => (.unauthorized, rl.2, ss)
    | some (uid, _, _) =>
      match getDoc ss sessionId with
      | none => (.notFound, rl.2, ss)
      | some sessionData =>
        if sessionData.firebaseUserId ≠ uid then
          (.forbidden, rl.2, ss)
        else if sessionData.expiresAt < now then
          (.expired, rl.2, ss)
        else
          match issuer with
          | .ok developerToken =>
            let updated : Session :=
              { sessionData with
                  status := "success"
                  completedAt := some now
                  userAccessToken := some developerToken
                  expiresAt := now + twentyFourHoursMs }
            (.ok developerToken, rl.2, setDoc ss sessionId updated)
          | .error msg =>
            let updated : Session :=
              { sessionData with
                  status := "error"
                  errorMsg := some msg
                  completedAt := some now }
            (.internalError, rl.2, setDoc ss sessionId updated)

inductive StatusResult where
  | rateLimited
  | notFound
  | ok (status : String) (userAccessToken : Option String)
deriving DecidableEq, Repr

/-- `getSessionStatus` (src/index.ts): rate-limited read-only view;
`userAccessToken` is returned only when `status === 'success'`. -/
def getSessionStatus (rs : RateStore) (ss : SessionStore) (sessionId : String)
    (now : Nat) : StatusResult × RateStore × SessionStore :=
  let rl := checkRateLimit rs ("get_status_" ++ sessionId) 10 60000 now
  if rl.1 = false then
    (.rateLimited, rl.2, ss)
  else
    match getDoc ss sessionId with
    | none => (.notFound, rl.2, ss)
    | some sessionData =>
      (.ok sessionData.status
        (if sessionData.status = "success" then sessionData.userAccessToken else none),
        rl.2, ss)

/-- `cleanupExpiredSessions` (src/index.ts):
```
const fiveMinutesAgo = new Date(Date.now() - (5 * 60 * 1000));
const snapshot = await sessionsRef.where('expiresAt', '<', fiveMinutesAgo).get();
```
then batch-deletes the snapshot. Returns the store after the sweep and the
number of deleted documents (`snapshot.size`). -/
def cleanupExpiredSessions (ss : SessionStore) (now : Nat) : SessionStore × Nat :=
  let isExpired : String × Session → Bool :=
    fun p => p.2.expiresAt < now - fiveMinutesMs
  (ss.filter (fun p => ! isExpired p), (ss.filter isExpired).length)

/-! ## Credential issuer (src/apple-music-auth.ts)

The file holds two revisions of `AppleMusicAuth`. The first resolves the
private key inside every `generateDeveloperToken()` call via
`getPrivateKey()`; the second resolves it inside `loadConfig()`, which caches
the whole configuration in `this.config` after the first successful load.
Both build the same JWT: header `{alg:'ES256', kid:keyId, typ:'JWT'}`,
payload `{iss, iat:now, exp:now+6*30*24*60*60, aud:'appstoreconnect-v1'}`.
The filesystem (`fs.existsSync`/`fs.readFileSync`) is abstracted as a map
from paths to file contents; `jwt.sign` is abstracted by recording the
header, claim set and signing-key material. -/

/-- Abstract filesystem: `fs path = some contents` when the file exists. -/
abbrev Fs := String → Option String

structure DeveloperToken where
  alg : String
  kid : String
  typ : String
  iss : String
  iat : Nat
  exp : Nat
  aud : String
  signingKey : String
deriving DecidableEq, Repr

/-- `6 * 30 * 24 * 60 * 60` — the token lifetime in seconds. -/
def sixMonthsSeconds : Nat := 6 * 30 * 24 * 60 * 60

/-- Shared dereference step of both revisions: read the file at the path if
it exists, otherwise treat the configured value as the key content itself. -/
def resolveKeyMaterial (fs : Fs) (privateKeyPath : String) : String :=
  match fs privateKeyPath with
  | some contents => contents
  | none => privateKeyPath

/-- Configuration of the first revision (`privateKeyPath` kept as a path). -/
structure AppleMusicConfigV1 where
  keyId : String
  teamId : String
  privateKeyPath : String
  issuer : String
deriving DecidableEq, Repr

/-- First-revision `generateDeveloperToken()`: calls `this.getPrivateKey()`
unconditionally, then signs the fresh claim set. The second component counts
the key resolutions (`getPrivateKey` invocations) performed by this call. -/
def generateDeveloperTokenV1 (cfg : AppleMusicConfigV1) (fs : Fs) (now : Nat) :
    DeveloperToken × Nat :=
  let privateKey := resolveKeyMaterial fs cfg.privateKeyPath
  ({ alg := "ES256", kid := cfg.keyId, typ := "JWT"
     iss := cfg.issuer, iat := now, exp := now + sixMonthsSeconds
     aud := "appstoreconnect-v1", signingKey := privateKey }, 1)

/-- A sequence of first-revision calls on the cached singleton instance;
returns the tokens and the total number of key resolutions. -/
def runGenerateV1 (cfg : AppleMusicConfigV1) (fs : Fs) :
    List Nat → List DeveloperToken × Nat
  | [] => ([], 0)
  | t :: ts =>
    let r := generateDeveloperTokenV1 cfg fs t
    let rest := runGenerateV1 cfg fs ts
    (r.1 :: rest.1, r.2 + rest.2)

/-- Configuration of the second revision (key material already resolved). -/
structure AppleMusicConfig where
  keyId : String
  teamId : String
  privateKey : String
  issuer : String
deriving DecidableEq, Repr

/-- Environment the second revision reads (functions config / process.env). -/
structure Env where
  keyId : String
  teamId : String
  issuerId : String
  privateKeyPath : String
deriving DecidableEq, Repr

/-- `validateConfig()` of the second revision: the required fields whose
value is falsy (empty). -/
def missingFields (c : AppleMusicConfig) : List String :=
  ([("keyId", c.keyId), ("teamId", c.teamId),
    ("privateKey", c.privateKey), ("issuer", c.issuer)].filter
      (fun p => p.2 = "")).map Prod.fst

/-- Second-revision `loadConfig()`: returns the cached `this.config` when
present; otherwise resolves the private key
(`getPrivateKeyFromSecretManager`, which falls back to
`APPLE_MUSIC_PRIVATE_KEY_PATH` and dereferences it), assigns `this.config`,
then validates. Note the source assigns `this.config` before
`validateConfig()` runs, so a validation failure still leaves the config
cached. Result: outcome, the new `this.config`, and the number of key
resolutions performed by this call. -/
def loadConfig (state : Option AppleMusicConfig) (env : Env) (fs : Fs) :
    Except String AppleMusicConfig × Option AppleMusicConfig × Nat :=
  match state with
  | some config => (.ok config, some config, 0)
  | none =>
    if env.privateKeyPath = "" then
      (.error "Failed to load Apple Music configuration: No private key available from environment variable",
        none, 0)
    else
      let privateKey := resolveKeyMaterial fs env.privateKeyPath
      let config : AppleMusicConfig :=
        { keyId := env.keyId, teamId := env.teamId
          privateKey := privateKey, issuer := env.issuerId }
      match missingFields config with
      | [] => (.ok config, some config, 1)
      | fields =>
        (.error ("Missing required Apple Music configuration: " ++ String.intercalate ", " fields),
          some config, 1)

/-- Second-revision `generateDeveloperToken()`: `loadConfig()` then a fresh
claim set from the current time. -/
def generateDeveloperTokenV2 (state : Option AppleMusicConfig) (env : Env)
    (fs : Fs) (now : Nat) :
    Except String DeveloperToken × Option AppleMusicConfig × Nat :=
  match loadConfig state env fs with
  | (.error e, state', k) => (.error e, state', k)
  | (.ok config, state', k) =>
    (.ok { alg := "ES256", kid := config.keyId, typ := "JWT"
           iss := config.issuer, iat := now, exp := now + sixMonthsSeconds
           aud := "appstoreconnect-v1", signingKey := config.privateKey },
      state', k)

/-- A sequence of second-revision calls on the singleton instance; returns
the per-call outcomes, the final cached config and the total number of key
resolutions. -/
def runGenerateV2 (env : Env) (fs : Fs) :
    Option AppleMusicConfig → List Nat →
      List (Except String DeveloperToken) × Option AppleMusicConfig × Nat
  | state, [] => ([], state, 0)
  | state, t :: ts =>
    let r := generateDeveloperTokenV2 state env fs t
    let rest := runGenerateV2 env fs r.2.1 ts
    (r.1 :: rest.1, rest.2.1, r.2.2 + rest.2.2)

/-! ## Concrete scenarios used below -/

/-- A verifier that accepts exactly the id token `"tokA"` as user `uidA`. -/
def verifyA : Verifier :=
  fun t => if t = "tokA" then some ("uidA", "a@example.com", "apple.com") else none

/-- Trace step 1: `initializeSession("s1", tokA)` at time 0. -/
def trace1 : InitResult × RateStore × SessionStore :=
  initializeSession [] [] verifyA "s1" "tokA" 0

/-- Trace step 2: `completeAuthentication("s1", tokA)` at time 1000, with
`generateDeveloperToken()` throwing — the catch block records `status='error'`. -/
def trace2 : CompleteResult × RateStore × SessionStore :=
  completeAuthentication trace1.2.1 trace1.2.2 verifyA "s1" "tokA" (.error "boom") 1000

/-- Trace step 3: `completeAuthentication("s1", tokA)` again at time 2000,
with `generateDeveloperToken()` succeeding. -/
def trace3 : CompleteResult × RateStore × SessionStore :=
  completeAuthentication trace2.2.1 trace2.2.2 verifyA "s1" "tokA" (.ok "devtok") 2000

/-- A session whose `expiresAt` (999999) is in the past at time 1000000 but
within the sweeper's five-minute grace threshold. -/
def staleSession : Session :=
  { sessionId := "s2", firebaseUserId := "uidA", userEmail := "a@example.com"
    status := "pending", createdAt := 0, expiresAt := 999999
    authProvider := "apple.com", completedAt := none, userAccessToken := none
    errorMsg := none }

/-- A pending session owned by `uidB`, used to probe the ownership check. -/
def sessOwnedByB : Session :=
  { sessionId := "s1", firebaseUserId := "uidB", userEmail := "b@example.com"
    status := "pending", createdAt := 0, expiresAt := 300000
    authProvider := "apple.com", completedAt := none, userAccessToken := none
    errorMsg := none }

/-- A pending session owned by `uidA` with `expiresAt = 300000`. -/
def sessOwnedByA : Session :=
  { sessionId := "s1", firebaseUserId := "uidA", userEmail := "a@example.com"
    status := "pending", createdAt := 0, expiresAt := 300000
    authProvider := "apple.com", completedAt := none, userAccessToken := none
    errorMsg := none }

/-- A session owned by `uidA` already in the terminal `error` status, still
inside its five-minute window. -/
def sessErroredA : Session :=
  { sessionId := "s1", firebaseUserId := "uidA", userEmail := "a@example.com"
    status := "error", createdAt := 0, expiresAt := 300000
    authProvider := "apple.com", completedAt := some 10, userAccessToken := none
    errorMsg := some "boom" }

/-- A record reused by `initializeSession` under the same id: owned by
`uidB`, already completed successfully. -/
def sessSucceededB : Session :=
  { sessionId := "s9", firebaseUserId := "uidB", userEmail := "b@example.com"
    status := "success", createdAt := 0, expiresAt := 100
    authProvider := "apple.com", completedAt := some 1
    userAccessToken := some "old", errorMsg := none }

/-- A verifier that rejects every id token. -/
def verifyNone : Verifier := fun _ => none

/-- A rate store whose `complete_auth_s1` quota (limit 3) is exhausted until
time 300000. -/
def rsExhausted : RateStore := [("complete_auth_s1", ⟨3, 300000⟩)]

/-- `rs'` reflects one consumed unit of quota for `key` relative to `rs` at
time `now`: a fresh or reset window records count 1, an open window records
the incremented count. -/
def quotaConsumed (rs : RateStore) (key : String) (windowMs now : Nat)
    (rs' : RateStore) : Bool :=
  match rateGet rs key with
  | none => decide (rateGet rs' key = some ⟨1, now + windowMs⟩)
  | some r =>
    if now > r.resetTime then
      decide (rateGet rs' key = some ⟨1, now + windowMs⟩)
    else
      decide (rateGet rs' key = some ⟨r.count + 1, r.resetTime⟩)

/-- A concrete first-revision configuration. -/
def cfgV1Ex : AppleMusicConfigV1 :=
  { keyId := "KEYID", teamId := "TEAMID"
    privateKeyPath := "/keys/AuthKey.p8", issuer := "ISSUER" }

/-- A concrete second-revision environment. -/
def envEx : Env :=
  { keyId := "KEYID", teamId := "TEAMID"
    issuerId := "ISSUER", privateKeyPath := "/keys/AuthKey.p8" }

/-- A filesystem holding one key file. -/
def fsEx : Fs := fun p => if p = "/keys/AuthKey.p8" then some "pem-content" else none

/-! ## Theorems -/

theorem rateGet_rateSet_self (s : RateStore) (k : String) (v : RateRecord) :
    rateGet (rateSet s k v) k = some v := by
  induction s with
  | nil => simp [rateSet, rateGet]
  | cons hd tl ih =>
    by_cases h : hd.1 = k <;> simp [rateSet, rateGet, h, ih]

theorem rateSet_rateSet (s : RateStore) (k : String) (v w : RateRecord) :
    rateSet (rateSet s k v) k w = rateSet s k w := by
  induction s with
  | nil => simp [rateSet]
  | cons hd tl ih =>
    by_cases h : hd.1 = k
    · simp [rateSet, h]
    · simp [rateSet, h, ih]

theorem rateSet_of_rateGet (s : RateStore) (k : String) (v : RateRecord)
    (h : rateGet s k = some v) : rateSet s k v = s := by
  induction s with
  | nil => simp [rateGet] at h
  | cons hd tl ih =>
    by_cases hk : hd.1 = k
    · simp [rateGet, hk] at h
      simp only [rateSet, if_pos hk]
      rw [← h, ← hk]
    · simp [rateGet, hk] at h
      simp [rateSet, hk, ih h]

/-- Within one window (every call time at most `R`, the stored reset time),
calls are allowed while the count stays below the limit, and each allowed call
increments the count. -/
theorem runRateCalls_allowed (id : String) (limit windowMs R : Nat) :
    ∀ (ts : List Nat) (s : RateStore) (c : Nat),
      rateGet s id = some ⟨c, R⟩ →
      (∀ t ∈ ts, t ≤ R) →
      c + ts.length ≤ limit →
      runRateCalls s id limit windowMs ts =
        (List.replicate ts.length true, rateSet s id ⟨c + ts.length, R⟩) := by
  intro ts
  induction ts with
  | nil =>
    intro s c hget _ _
    simp only [runRateCalls, List.length_nil, List.replicate_zero, Nat.add_zero]
    rw [rateSet_of_rateGet s id _ hget]
  | cons t ts ih =>
    intro s c hget hts hle
    have ht : t ≤ R := hts t (List.mem_cons_self t ts)
    have hc : c < limit := by
      have := hle
      simp only [List.length_cons] at this
      omega
    have hstep : checkRateLimit s id limit windowMs t =
        (true, rateSet s id ⟨c + 1, R⟩) := by
      simp [checkRateLimit, hget, Nat.not_lt.mpr ht, Nat.not_le.mpr hc]
    have hget' : rateGet (rateSet s id ⟨c + 1, R⟩) id = some ⟨c + 1, R⟩ :=
      rateGet_rateSet_self s id _
    have hts' : ∀ u ∈ ts, u ≤ R := fun u hu => hts u (List.mem_cons_of_mem t hu)
    have hle' : (c + 1) + ts.length ≤ limit := by
      simp only [List.length_cons] at hle; omega
    have := ih (rateSet s id ⟨c + 1, R⟩) (c + 1) hget' hts' hle'
    simp only [runRateCalls, hstep, this, rateSet_rateSet, List.length_cons,
      List.replicate_succ]
    have harith : c + 1 + ts.length = c + (ts.length + 1) := by omega
    rw [harith]

/-- C4: starting with no record for `key`, the first `N` calls within the
window are all allowed, the `(N+1)`th call within the window is denied and
leaves the store unchanged, and a call strictly after the window reset time is
allowed again. -/
theorem checkRateLimit_fixed_window (s : RateStore) (key : String)
    (N W t₀ : Nat) (rest : List Nat)
    (hN : 1 ≤ N) (h0 : rateGet s key = none)
    (hlen : rest.length = N - 1)
    (hrest : ∀ t ∈ rest, t ≤ t₀ + W) :
    (runRateCalls s key N W (t₀ :: rest)).1 = List.replicate N true ∧
    (runRateCalls s key N W (t₀ :: rest)).2 = rateSet s key ⟨N, t₀ + W⟩ ∧
    (∀ t, t ≤ t₀ + W →
      checkRateLimit (rateSet s key ⟨N, t₀ + W⟩) key N W t =
        (false, rateSet s key ⟨N, t₀ + W⟩)) ∧
    (∀ t, t₀ + W < t →
      (checkRateLimit (rateSet s key ⟨N, t₀ + W⟩) key N W t).1 = true) := by
  have hstep : checkRateLimit s key N W t₀ = (true, rateSet s key ⟨1, t₀ + W⟩) := by
    simp [checkRateLimit, h0]
  have hget1 : rateGet (rateSet s key ⟨1, t₀ + W⟩) key = some ⟨1, t₀ + W⟩ :=
    rateGet_rateSet_self s key _
  have hle : 1 + rest.length ≤ N := by omega
  have hrun := runRateCalls_allowed key N W (t₀ + W) rest
    (rateSet s key ⟨1, t₀ + W⟩) 1 hget1 hrest hle
  have hlen' : 1 + rest.length = N := by omega
  refine ⟨?_, ?_, ?_, ?_⟩
  · simp only [runRateCalls, hstep, hrun, hlen']
    cases N with
    | zero => omega
    | succ n => simp [List.replicate_succ]; omega
  · simp only [runRateCalls, hstep, hrun, rateSet_rateSet, hlen']
  · intro t ht
    have hgetN : rateGet (rateSet s key ⟨N, t₀ + W⟩) key = some ⟨N, t₀ + W⟩ :=
      rateGet_rateSet_self s key _
    simp [checkRateLimit, hgetN, Nat.not_lt.mpr ht]
  · intro t ht
    have hgetN : rateGet (rateSet s key ⟨N, t₀ + W⟩) key = some ⟨N, t₀ + W⟩ :=
      rateGet_rateSet_self s key _
    simp [checkRateLimit, hgetN, ht]

/-- Witness for `checkRateLimit_fixed_window` at `N = 2`, `W = 10`, calls at
times 100 and 105, probe times 108 (denied) and 111 (fresh window). -/
theorem checkRateLimit_fixed_window_witness :
    (1 ≤ 2 ∧ rateGet [] "k" = none ∧ ([105] : List Nat).length = 2 - 1 ∧
      (∀ t ∈ ([105] : List Nat), t ≤ 100 + 10)) ∧
    ((runRateCalls [] "k" 2 10 (100 :: [105])).1 = List.replicate 2 true ∧
     (runRateCalls [] "k" 2 10 (100 :: [105])).2 = rateSet [] "k" ⟨2, 100 + 10⟩ ∧
     (∀ t, t ≤ 100 + 10 →
       checkRateLimit (rateSet [] "k" ⟨2, 100 + 10⟩) "k" 2 10 t =
         (false, rateSet [] "k" ⟨2, 100 + 10⟩)) ∧
     (∀ t, 100 + 10 < t →
       (checkRateLimit (rateSet [] "k" ⟨2, 100 + 10⟩) "k" 2 10 t).1 = true)) :=
  ⟨⟨by decide, by decide, by decide, by decide⟩,
    checkRateLimit_fixed_window [] "k" 2 10 100 [105]
      (by decide) (by decide) (by decide) (by decide)⟩

theorem getDoc_setDoc_self (ss : SessionStore) (k : String) (v : Session) :
    getDoc (setDoc ss k v) k = some v := by
  induction ss with
  | nil => simp [setDoc, getDoc]
  | cons hd tl ih =>
    by_cases h : hd.1 = k <;> simp [setDoc, getDoc, h, ih]

/-- A denied `checkRateLimit` call does not change the store. -/
theorem checkRateLimit_denied_store (s : RateStore) (id : String)
    (limit windowMs now : Nat)
    (h : (checkRateLimit s id limit windowMs now).1 = false) :
    (checkRateLimit s id limit windowMs now).2 = s := by
  unfold checkRateLimit at h ⊢
  cases hg : rateGet s id with
  | none => simp [hg] at h
  | some r =>
    simp only [hg] at h ⊢
    by_cases h1 : now > r.resetTime
    · simp [h1] at h
    · by_cases h2 : r.count ≥ limit
      · simp [h1, h2]
      · simp [h1, h2] at h

/-- An allowed `checkRateLimit` call consumes one unit of quota. -/
theorem checkRateLimit_allowed_quota (s : RateStore) (id : String)
    (limit windowMs now : Nat)
    (h : (checkRateLimit s id limit windowMs now).1 = true) :
    quotaConsumed s id windowMs now (checkRateLimit s id limit windowMs now).2 = true := by
  unfold checkRateLimit at h ⊢
  unfold quotaConsumed
  cases hg : rateGet s id with
  | none => simp [hg, rateGet_rateSet_self]
  | some r =>
    simp only [hg] at h ⊢
    by_cases h1 : now > r.resetTime
    · simp [h1, rateGet_rateSet_self]
    · by_cases h2 : r.count ≥ limit
      · simp [h1, h2] at h
      · simp [h1, h2, rateGet_rateSet_self]

/-- Helper: the successful path of `initializeSession`. -/
theorem initializeSession_ok_eq
    (rs : RateStore) (ss : SessionStore) (verify : Verifier)
    (sessionId token uid email provider : String) (now : Nat)
    (hrl : (checkRateLimit rs ("init_session_" ++ sessionId) 5 300000 now).1 = true)
    (hv : verify token = some (uid, email, provider)) :
    initializeSession rs ss verify sessionId token now =
      (.ok, (checkRateLimit rs ("init_session_" ++ sessionId) 5 300000 now).2,
        setDoc ss sessionId
          { sessionId := sessionId, firebaseUserId := uid, userEmail := email
            status := "pending", createdAt := now, expiresAt := now + fiveMinutesMs
            authProvider := provider, completedAt := none, userAccessToken := none
            errorMsg := none }) := by
  unfold initializeSession
  simp [hrl, hv]

/-- Helper: the successful path of `completeAuthentication`. No hypothesis
constrains `sess.status` — the source never reads it. -/
theorem completeAuthentication_success_eq
    (rs : RateStore) (ss : SessionStore) (verify : Verifier)
    (sessionId token uid email provider devTok : String) (sess : Session) (now : Nat)
    (hrl : (checkRateLimit rs ("complete_auth_" ++ sessionId) 3 300000 now).1 = true)
    (hv : verify token = some (uid, email, provider))
    (hdoc : getDoc ss sessionId = some sess)
    (howner : sess.firebaseUserId = uid)
    (hexp : ¬ sess.expiresAt < now) :
    completeAuthentication rs ss verify sessionId token (.ok devTok) now =
      (.ok devTok, (checkRateLimit rs ("complete_auth_" ++ sessionId) 3 300000 now).2,
        setDoc ss sessionId
          { sess with
              status := "success", completedAt := some now
              userAccessToken := some devTok
              expiresAt := now + twentyFourHoursMs }) := by
  unfold completeAuthentication
  simp [hrl, hv, hdoc, howner, hexp]

/-- C9: `initializeSession` performs no existence or ownership check: for
every prior store contents (any record under `sessionId`, any owner, any
status), once the rate check and token verification pass it overwrites the
document with a fresh pending record owned by the caller, expiring at
`now + 5 minutes`. -/
theorem initializeSession_unconditional_overwrite
    (rs : RateStore) (ss : SessionStore) (verify : Verifier)
    (sessionId token uid email provider : String) (now : Nat)
    (hrl : (checkRateLimit rs ("init_session_" ++ sessionId) 5 300000 now).1 = true)
    (hv : verify token = some (uid, email, provider)) :
    initializeSession rs ss verify sessionId token now =
      (.ok, (checkRateLimit rs ("init_session_" ++ sessionId) 5 300000 now).2,
        setDoc ss sessionId
          { sessionId := sessionId, firebaseUserId := uid, userEmail := email
            status := "pending", createdAt := now, expiresAt := now + fiveMinutesMs
            authProvider := provider, completedAt := none, userAccessToken := none
            errorMsg := none }) ∧
    getDoc (initializeSession rs ss verify sessionId token now).2.2 sessionId =
      some
        { sessionId := sessionId, firebaseUserId := uid, userEmail := email
          status := "pending", createdAt := now, expiresAt := now + fiveMinutesMs
          authProvider := provider, completedAt := none, userAccessToken := none
          errorMsg := none } := by
  have hmain := initializeSession_ok_eq rs ss verify sessionId token uid email
    provider now hrl hv
  exact ⟨hmain, by rw [hmain]; exact getDoc_setDoc_self ss sessionId _⟩

/-- Witness for `initializeSession_unconditional_overwrite`: the overwritten
record previously belonged to another user and was already terminal. -/
theorem initializeSession_unconditional_overwrite_witness :
    ((checkRateLimit [] ("init_session_" ++ "s9") 5 300000 7).1 = true ∧
      verifyA "tokA" = some ("uidA", "a@example.com", "apple.com")) ∧
    (initializeSession [] [("s9", sessSucceededB)] verifyA "s9" "tokA" 7 =
      (.ok, (checkRateLimit [] ("init_session_" ++ "s9") 5 300000 7).2,
        setDoc [("s9", sessSucceededB)] "s9"
          { sessionId := "s9", firebaseUserId := "uidA", userEmail := "a@example.com"
            status := "pending", createdAt := 7, expiresAt := 7 + fiveMinutesMs
            authProvider := "apple.com", completedAt := none, userAccessToken := none
            errorMsg := none }) ∧
      getDoc (initializeSession [] [("s9", sessSucceededB)] verifyA "s9" "tokA" 7).2.2 "s9" =
        some { sessionId := "s9", firebaseUserId := "uidA", userEmail := "a@example.com"
               status := "pending", createdAt := 7, expiresAt := 7 + fiveMinutesMs
               authProvider := "apple.com", completedAt := none, userAccessToken := none
               errorMsg := none }) :=
  ⟨⟨by decide, by decide⟩,
    initializeSession_unconditional_overwrite [] [("s9", sessSucceededB)] verifyA
      "s9" "tokA" "uidA" "a@example.com" "apple.com" 7 (by decide) (by decide)⟩

/-- C7: `completeAuthentication` by a verified identity different from the
record's owner responds 403 Forbidden and leaves the session store — in
particular the stored record — unchanged, whatever the issuer would have
returned. -/
theorem completeAuthentication_forbidden
    (rs : RateStore) (ss : SessionStore) (verify : Verifier)
    (sessionId token uid email provider : String) (sess : Session)
    (issuer : Except String String) (now : Nat)
    (hrl : (checkRateLimit rs ("complete_auth_" ++ sessionId) 3 300000 now).1 = true)
    (hv : verify token = some (uid, email, provider))
    (hdoc : getDoc ss sessionId = some sess)
    (howner : sess.firebaseUserId ≠ uid) :
    completeAuthentication rs ss verify sessionId token issuer now =
      (.forbidden, (checkRateLimit rs ("complete_auth_" ++ sessionId) 3 300000 now).2, ss) := by
  unfold completeAuthentication
  simp [hrl, hv, hdoc, howner]

/-- Witness for `completeAuthentication_forbidden`: a pending record owned by
`uidB` completed with `uidA`'s token. -/
theorem completeAuthentication_forbidden_witness :
    ((checkRateLimit [] ("complete_auth_" ++ "s1") 3 300000 50).1 = true ∧
      verifyA "tokA" = some ("uidA", "a@example.com", "apple.com") ∧
      getDoc [("s1", sessOwnedByB)] "s1" = some sessOwnedByB ∧
      sessOwnedByB.firebaseUserId ≠ "uidA") ∧
    completeAuthentication [] [("s1", sessOwnedByB)]
        verifyA "s1" "tokA" (.ok "devtok") 50 =
      (.forbidden, (checkRateLimit [] ("complete_auth_" ++ "s1") 3 300000 50).2,
        [("s1", sessOwnedByB)]) :=
  ⟨⟨by decide, by decide, by decide, by decide⟩,
    completeAuthentication_forbidden [] [("s1", sessOwnedByB)] verifyA "s1" "tokA"
      "uidA" "a@example.com" "apple.com" sessOwnedByB (.ok "devtok") 50
      (by decide) (by decide) (by decide) (by decide)⟩

/-- C8: `completeAuthentication` by the owner on a pending record whose
`expiresAt` is in the past responds 410 Expired and leaves the session store
unchanged. -/
theorem completeAuthentication_expired
    (rs : RateStore) (ss : SessionStore) (verify : Verifier)
    (sessionId token uid email provider : String) (sess : Session)
    (issuer : Except String String) (now : Nat)
    (hrl : (checkRateLimit rs ("complete_auth_" ++ sessionId) 3 300000 now).1 = true)
    (hv : verify token = some (uid, email, provider))
    (hdoc : getDoc ss sessionId = some sess)
    (howner : sess.firebaseUserId = uid)
    (_hpending : sess.status = "pending")
    (hexp : sess.expiresAt < now) :
    completeAuthentication rs ss verify sessionId token issuer now =
      (.expired, (checkRateLimit rs ("complete_auth_" ++ sessionId) 3 300000 now).2, ss) := by
  unfold completeAuthentication
  simp [hrl, hv, hdoc, howner, hexp]

/-- Witness for `completeAuthentication_expired`: the owner completes at time
300001, one millisecond past `expiresAt = 300000`. -/
theorem completeAuthentication_expired_witness :
    ((checkRateLimit [] ("complete_auth_" ++ "s1") 3 300000 300001).1 = true ∧
      verifyA "tokA" = some ("uidA", "a@example.com", "apple.com") ∧
      getDoc [("s1", sessOwnedByA)] "s1" = some sessOwnedByA ∧
      sessOwnedByA.firebaseUserId = "uidA" ∧
      sessOwnedByA.status = "pending" ∧
      sessOwnedByA.expiresAt < 300001) ∧
    completeAuthentication [] [("s1", sessOwnedByA)]
        verifyA "s1" "tokA" (.ok "devtok") 300001 =
      (.expired, (checkRateLimit [] ("complete_auth_" ++ "s1") 3 300000 300001).2,
        [("s1", sessOwnedByA)]) :=
  ⟨⟨by decide, by decide, by decide, by decide, by decide, by decide⟩,
    completeAuthentication_expired [] [("s1", sessOwnedByA)] verifyA "s1" "tokA"
      "uidA" "a@example.com" "apple.com" sessOwnedByA (.ok "devtok") 300001
      (by decide) (by decide) (by decide) (by decide) (by decide) (by decide)⟩

/-- C6: after `initialize(s1, userA)` at `t1`, a `complete(s1, userA)` call at
`t2` within the five-minute window whose credential issuance succeeds responds
with the token and leaves the record with `status='success'`, the credential
stored, and `expiresAt = t2 + 24 hours`. -/
theorem complete_after_initialize_success
    (rs : RateStore) (ss : SessionStore) (verify : Verifier)
    (sid token uid email provider devTok : String) (t1 t2 : Nat)
    (hv : verify token = some (uid, email, provider))
    (h1 : (checkRateLimit rs ("init_session_" ++ sid) 5 300000 t1).1 = true)
    (h2 : (checkRateLimit (initializeSession rs ss verify sid token t1).2.1
        ("complete_auth_" ++ sid) 3 300000 t2).1 = true)
    (ht : t2 ≤ t1 + fiveMinutesMs) :
    (completeAuthentication (initializeSession rs ss verify sid token t1).2.1
        (initializeSession rs ss verify sid token t1).2.2 verify sid token
        (.ok devTok) t2).1 = .ok devTok ∧
    getDoc (completeAuthentication (initializeSession rs ss verify sid token t1).2.1
        (initializeSession rs ss verify sid token t1).2.2 verify sid token
        (.ok devTok) t2).2.2 sid =
      some
        { sessionId := sid, firebaseUserId := uid, userEmail := email
          status := "success", createdAt := t1, expiresAt := t2 + twentyFourHoursMs
          authProvider := provider, completedAt := some t2
          userAccessToken := some devTok, errorMsg := none } := by
  have hinit := initializeSession_ok_eq rs ss verify sid token uid email provider t1 h1 hv
  have hdoc : getDoc (initializeSession rs ss verify sid token t1).2.2 sid =
      some
        { sessionId := sid, firebaseUserId := uid, userEmail := email
          status := "pending", createdAt := t1, expiresAt := t1 + fiveMinutesMs
          authProvider := provider, completedAt := none, userAccessToken := none
          errorMsg := none } := by
    rw [hinit]
    exact getDoc_setDoc_self ss sid _
  have hexp : ¬ t1 + fiveMinutesMs < t2 := by
    simp only [fiveMinutesMs] at ht ⊢
    omega
  have hcomp := completeAuthentication_success_eq
    (initializeSession rs ss verify sid token t1).2.1
    (initializeSession rs ss verify sid token t1).2.2 verify sid token uid email
    provider devTok _ t2 h2 hv hdoc rfl hexp
  rw [hcomp]
  refine ⟨rfl, ?_⟩
  exact getDoc_setDoc_self _ sid _

/-- Witness for `complete_after_initialize_success`: initialize at time 0,
complete at time 1000. -/
theorem complete_after_initialize_success_witness :
    (verifyA "tokA" = some ("uidA", "a@example.com", "apple.com") ∧
      (checkRateLimit [] ("init_session_" ++ "s1") 5 300000 0).1 = true ∧
      (checkRateLimit (initializeSession [] [] verifyA "s1" "tokA" 0).2.1
        ("complete_auth_" ++ "s1") 3 300000 1000).1 = true ∧
      (1000 : Nat) ≤ 0 + fiveMinutesMs) ∧
    ((completeAuthentication (initializeSession [] [] verifyA "s1" "tokA" 0).2.1
        (initializeSession [] [] verifyA "s1" "tokA" 0).2.2 verifyA "s1" "tokA"
        (.ok "devtok") 1000).1 = .ok "devtok" ∧
      getDoc (completeAuthentication (initializeSession [] [] verifyA "s1" "tokA" 0).2.1
          (initializeSession [] [] verifyA "s1" "tokA" 0).2.2 verifyA "s1" "tokA"
          (.ok "devtok") 1000).2.2 "s1" =
        some
          { sessionId := "s1", firebaseUserId := "uidA", userEmail := "a@example.com"
            status := "success", createdAt := 0, expiresAt := 1000 + twentyFourHoursMs
            authProvider := "apple.com", completedAt := some 1000
            userAccessToken := some "devtok", errorMsg := none }) :=
  ⟨⟨by decide, by decide, by decide, by decide⟩,
    complete_after_initialize_success [] [] verifyA "s1" "tokA" "uidA"
      "a@example.com" "apple.com" "devtok" 0 1000
      (by decide) (by decide) (by decide) (by decide)⟩

/-- C1 counterexample: the claimed invariant "a record whose status is
Success or Error is never transitioned again" fails. After `initialize` at
time 0 and a failed `complete` at time 1000 the record's status is `error`;
a further `complete` by the same owner at time 2000 (still inside the
five-minute window) transitions it to `success` and writes a credential —
`completeAuthentication` never reads the stored status. -/
theorem complete_retransitions_terminal_counterexample :
    (getDoc trace2.2.2 "s1").map Session.status = some "error" ∧
    (getDoc trace3.2.2 "s1").map Session.status = some "success" ∧
    (getDoc trace2.2.2 "s1").map Session.userAccessToken = some none ∧
    (getDoc trace3.2.2 "s1").map Session.userAccessToken = some (some "devtok") ∧
    trace3.1 = .ok "devtok" := by
  refine ⟨?_, ?_, ?_, ?_, ?_⟩ <;> rfl

/-- C1 amended: `completeAuthentication` never inspects the stored status.
Whenever the rate check, token verification, ownership and expiry checks pass
and issuance succeeds, it overwrites the record with `status='success'` and a
fresh credential — with no hypothesis on the record's current status, which
may already be `success` or `error`. -/
theorem completeAuthentication_ignores_status
    (rs : RateStore) (ss : SessionStore) (verify : Verifier)
    (sessionId token uid email provider devTok : String) (sess : Session) (now : Nat)
    (hrl : (checkRateLimit rs ("complete_auth_" ++ sessionId) 3 300000 now).1 = true)
    (hv : verify token = some (uid, email, provider))
    (hdoc : getDoc ss sessionId = some sess)
    (howner : sess.firebaseUserId = uid)
    (hexp : ¬ sess.expiresAt < now) :
    (completeAuthentication rs ss verify sessionId token (.ok devTok) now).1 =
      .ok devTok ∧
    getDoc (completeAuthentication rs ss verify sessionId token (.ok devTok) now).2.2
        sessionId =
      some { sess with
              status := "success", completedAt := some now
              userAccessToken := some devTok
              expiresAt := now + twentyFourHoursMs } := by
  have hcomp := completeAuthentication_success_eq rs ss verify sessionId token uid
    email provider devTok sess now hrl hv hdoc howner hexp
  rw [hcomp]
  exact ⟨rfl, getDoc_setDoc_self ss sessionId _⟩

/-- Witness for `completeAuthentication_ignores_status`: the record's status
is already the terminal `error` and it is transitioned to `success`. -/
theorem completeAuthentication_ignores_status_witness :
    ((checkRateLimit [] ("complete_auth_" ++ "s1") 3 300000 2000).1 = true ∧
      verifyA "tokA" = some ("uidA", "a@example.com", "apple.com") ∧
      getDoc [("s1", sessErroredA)] "s1" = some sessErroredA ∧
      sessErroredA.firebaseUserId = "uidA" ∧
      ¬ sessErroredA.expiresAt < 2000 ∧ sessErroredA.status = "error") ∧
    ((completeAuthentication [] [("s1", sessErroredA)] verifyA "s1" "tokA"
        (.ok "devtok") 2000).1 = .ok "devtok" ∧
      getDoc (completeAuthentication [] [("s1", sessErroredA)] verifyA "s1" "tokA"
          (.ok "devtok") 2000).2.2 "s1" =
        some { sessErroredA with
                status := "success", completedAt := some 2000
                userAccessToken := some "devtok"
                expiresAt := 2000 + twentyFourHoursMs }) :=
  ⟨⟨by decide, by decide, by decide, by decide, by decide, by decide⟩,
    completeAuthentication_ignores_status [] [("s1", sessErroredA)] verifyA "s1"
      "tokA" "uidA" "a@example.com" "apple.com" "devtok" sessErroredA 2000
      (by decide) (by decide) (by decide) (by decide) (by decide)⟩

/-- C10: in both `initializeSession` and `completeAuthentication` the
per-session rate limit is consulted — and, when it allows, incremented —
before the identity token is verified. A RateLimited call is independent of
the verifier and touches neither the rate store nor the session store; an
Unauthorized call has already consumed quota, while the session store stays
untouched. -/
theorem rate_limit_precedes_identity_check
    (rs : RateStore) (ss : SessionStore) (sid token : String) (now : Nat)
    (issuer : Except String String) :
    ((checkRateLimit rs ("init_session_" ++ sid) 5 300000 now).1 = false →
      ∀ verify : Verifier,
        initializeSession rs ss verify sid token now = (.rateLimited, rs, ss)) ∧
    (∀ verify : Verifier,
      (checkRateLimit rs ("init_session_" ++ sid) 5 300000 now).1 = true →
      verify token = none →
      initializeSession rs ss verify sid token now =
        (.unauthorized, (checkRateLimit rs ("init_session_" ++ sid) 5 300000 now).2, ss) ∧
      quotaConsumed rs ("init_session_" ++ sid) 300000 now
        (initializeSession rs ss verify sid token now).2.1 = true) ∧
    ((checkRateLimit rs ("complete_auth_" ++ sid) 3 300000 now).1 = false →
      ∀ verify : Verifier,
        completeAuthentication rs ss verify sid token issuer now =
          (.rateLimited, rs, ss)) ∧
    (∀ verify : Verifier,
      (checkRateLimit rs ("complete_auth_" ++ sid) 3 300000 now).1 = true →
      verify token = none →
      completeAuthentication rs ss verify sid token issuer now =
        (.unauthorized, (checkRateLimit rs ("complete_auth_" ++ sid) 3 300000 now).2, ss) ∧
      quotaConsumed rs ("complete_auth_" ++ sid) 300000 now
        (completeAuthentication rs ss verify sid token issuer now).2.1 = true) := by
  refine ⟨?_, ?_, ?_, ?_⟩
  · intro h verify
    unfold initializeSession
    simp [h, checkRateLimit_denied_store _ _ _ _ _ h]
  · intro verify h hv
    have heq : initializeSession rs ss verify sid token now =
        (.unauthorized, (checkRateLimit rs ("init_session_" ++ sid) 5 300000 now).2, ss) := by
      unfold initializeSession
      simp [h, hv]
    refine ⟨heq, ?_⟩
    rw [heq]
    exact checkRateLimit_allowed_quota rs _ 5 300000 now h
  · intro h verify
    unfold completeAuthentication
    simp [h, checkRateLimit_denied_store _ _ _ _ _ h]
  · intro verify h hv
    have heq : completeAuthentication rs ss verify sid token issuer now =
        (.unauthorized, (checkRateLimit rs ("complete_auth_" ++ sid) 3 300000 now).2, ss) := by
      unfold completeAuthentication
      simp [h, hv]
    refine ⟨heq, ?_⟩
    rw [heq]
    exact checkRateLimit_allowed_quota rs _ 3 300000 now h

/-- Witness for `rate_limit_precedes_identity_check`: an unauthorized
`initializeSession` call that still consumes quota, and a rate-limited
`completeAuthentication` call (quota for `complete_auth_s1` exhausted) that
leaves both stores unchanged. -/
theorem rate_limit_precedes_identity_check_witness :
    ((checkRateLimit [] ("init_session_" ++ "s1") 5 300000 0).1 = true ∧
      verifyNone "tokA" = none ∧
      (checkRateLimit rsExhausted ("complete_auth_" ++ "s1") 3 300000 5).1 = false) ∧
    (initializeSession [] [] verifyNone "s1" "tokA" 0 =
        (.unauthorized, (checkRateLimit [] ("init_session_" ++ "s1") 5 300000 0).2, []) ∧
      quotaConsumed [] ("init_session_" ++ "s1") 300000 0
        (initializeSession [] [] verifyNone "s1" "tokA" 0).2.1 = true) ∧
    completeAuthentication rsExhausted [] verifyNone "s1" "tokA" (.ok "devtok") 5 =
      (.rateLimited, rsExhausted, []) :=
  ⟨⟨by decide, by decide, by decide⟩,
    (rate_limit_precedes_identity_check [] [] "s1" "tokA" 0 (.ok "devtok")).2.1
      verifyNone (by decide) (by decide),
    (rate_limit_precedes_identity_check rsExhausted [] "s1" "tokA" 5
      (.ok "devtok")).2.2.1 (by decide) verifyNone⟩

/-- C2 counterexample: the sweep's query threshold is `now − 5 minutes`, not
`now`. At time 1000000 the record's `expiresAt = 999999` is already in the
past, yet the sweep deletes nothing, because `999999 < 1000000 − 300000` is
false. -/
theorem cleanup_threshold_counterexample :
    staleSession.expiresAt < 1000000 ∧
    cleanupExpiredSessions [("s2", staleSession)] 1000000 =
      ([("s2", staleSession)], 0) :=
  ⟨by decide, rfl⟩

/-- C2 amended: one run of the sweep deletes exactly the records whose
`expiresAt` is earlier than `now − 5 minutes`, and keeps every other record
untouched (the survivors are a sublist of the original store); the reported
count is the number of deleted records. -/
theorem cleanupExpiredSessions_exact (ss : SessionStore) (now : Nat) :
    (cleanupExpiredSessions ss now).1.Sublist ss ∧
    (∀ p : String × Session, p ∈ (cleanupExpiredSessions ss now).1 ↔
      p ∈ ss ∧ ¬ p.2.expiresAt < now - fiveMinutesMs) ∧
    (cleanupExpiredSessions ss now).1.length + (cleanupExpiredSessions ss now).2 =
      ss.length := by
  refine ⟨?_, ?_, ?_⟩
  · exact List.filter_sublist ss
  · intro p
    simp [cleanupExpiredSessions, List.mem_filter]
  · have h := List.length_eq_length_filter_add
      (l := ss) (fun p : String × Session => decide (p.2.expiresAt < now - fiveMinutesMs))
    simp only [cleanupExpiredSessions]
    simp only [decide_not] at h ⊢
    omega

/-- Helper: a successful fresh `loadConfig` builds the configuration from the
environment. -/
theorem loadConfig_none_ok (env : Env) (fs : Fs) (config : AppleMusicConfig)
    (state' : Option AppleMusicConfig) (k : Nat)
    (h : loadConfig none env fs = (.ok config, state', k)) :
    config =
      { keyId := env.keyId, teamId := env.teamId
        privateKey := resolveKeyMaterial fs env.privateKeyPath
        issuer := env.issuerId } ∧
    state' = some config ∧ k = 1 := by
  simp only [loadConfig] at h
  by_cases hp : env.privateKeyPath = ""
  · rw [if_pos hp] at h
    simp at h
  · rw [if_neg hp] at h
    rcases hm : missingFields
        { keyId := env.keyId, teamId := env.teamId
          privateKey := resolveKeyMaterial fs env.privateKeyPath
          issuer := env.issuerId } with _ | ⟨f, fsx⟩
    · simp only [hm] at h
      simp only [Prod.mk.injEq, Except.ok.injEq] at h
      exact ⟨h.1.symm, by rw [← h.2.1, h.1], h.2.2.symm⟩
    · simp only [hm] at h
      simp at h

/-- C5: the developer token of either revision carries the configured `kid`
in its header, `exp − iat` equal to the six-month constant (in seconds),
`iss` equal to the configured issuer id and the fixed audience
`appstoreconnect-v1`. -/
theorem developer_token_claims
    (cfg : AppleMusicConfigV1) (fs : Fs) (now : Nat)
    (env : Env) (fs2 : Fs) (now2 : Nat) :
    ((generateDeveloperTokenV1 cfg fs now).1.kid = cfg.keyId ∧
      (generateDeveloperTokenV1 cfg fs now).1.exp -
        (generateDeveloperTokenV1 cfg fs now).1.iat = sixMonthsSeconds ∧
      (generateDeveloperTokenV1 cfg fs now).1.iss = cfg.issuer ∧
      (generateDeveloperTokenV1 cfg fs now).1.aud = "appstoreconnect-v1" ∧
      (generateDeveloperTokenV1 cfg fs now).1.alg = "ES256") ∧
    (∀ tok : DeveloperToken,
      (generateDeveloperTokenV2 none env fs2 now2).1 = .ok tok →
      tok.kid = env.keyId ∧ tok.exp - tok.iat = sixMonthsSeconds ∧
      tok.iss = env.issuerId ∧ tok.aud = "appstoreconnect-v1" ∧
      tok.alg = "ES256") ∧
    sixMonthsSeconds = 15552000 := by
  refine ⟨?_, ?_, rfl⟩
  · refine ⟨rfl, ?_, rfl, rfl, rfl⟩
    simp [generateDeveloperTokenV1]
  · intro tok h
    unfold generateDeveloperTokenV2 at h
    rcases hl : loadConfig none env fs2 with ⟨r, st, k⟩
    rw [hl] at h
    cases r with
    | error e => simp at h
    | ok config =>
      simp only [Except.ok.injEq] at h
      obtain ⟨hc, _, _⟩ := loadConfig_none_ok env fs2 config st k hl
      subst hc
      rw [← h]
      refine ⟨rfl, ?_, rfl, rfl, rfl⟩
      simp

/-- Witness for `developer_token_claims` at a concrete configuration,
filesystem and call times, with the second-revision hypothesis discharged at
the actually produced token. -/
theorem developer_token_claims_witness :
    ((generateDeveloperTokenV1 cfgV1Ex fsEx 700).1.kid = cfgV1Ex.keyId ∧
      (generateDeveloperTokenV1 cfgV1Ex fsEx 700).1.exp -
        (generateDeveloperTokenV1 cfgV1Ex fsEx 700).1.iat = sixMonthsSeconds ∧
      (generateDeveloperTokenV1 cfgV1Ex fsEx 700).1.iss = cfgV1Ex.issuer ∧
      (generateDeveloperTokenV1 cfgV1Ex fsEx 700).1.aud = "appstoreconnect-v1" ∧
      (generateDeveloperTokenV1 cfgV1Ex fsEx 700).1.alg = "ES256") ∧
    ((generateDeveloperTokenV2 none envEx fsEx 500).1 =
      .ok { alg := "ES256", kid := "KEYID", typ := "JWT", iss := "ISSUER"
            iat := 500, exp := 500 + sixMonthsSeconds, aud := "appstoreconnect-v1"
            signingKey := "pem-content" }) ∧
    ({ alg := "ES256", kid := "KEYID", typ := "JWT", iss := "ISSUER"
       iat := 500, exp := 500 + sixMonthsSeconds, aud := "appstoreconnect-v1"
       signingKey := "pem-content" } : DeveloperToken).kid = envEx.keyId ∧
    sixMonthsSeconds = 15552000 :=
  ⟨(developer_token_claims cfgV1Ex fsEx 700 envEx fsEx 500).1,
    rfl,
    ((developer_token_claims cfgV1Ex fsEx 700 envEx fsEx 500).2.1 _ rfl).1,
    rfl⟩

/-- Helper: with a cached config, `generateDeveloperTokenV2` reuses it and
performs no key resolution. -/
theorem generateDeveloperTokenV2_cached (c : AppleMusicConfig) (env : Env)
    (fs : Fs) (now : Nat) :
    generateDeveloperTokenV2 (some c) env fs now =
      (.ok { alg := "ES256", kid := c.keyId, typ := "JWT", iss := c.issuer
             iat := now, exp := now + sixMonthsSeconds
             aud := "appstoreconnect-v1", signingKey := c.privateKey },
        some c, 0) := by
  simp [generateDeveloperTokenV2, loadConfig]

/-- Helper: a run started with a cached config keeps it and never resolves
the key again. -/
theorem runGenerateV2_cached (env : Env) (fs : Fs) (c : AppleMusicConfig) :
    ∀ ts : List Nat,
      (runGenerateV2 env fs (some c) ts).2.1 = some c ∧
      (runGenerateV2 env fs (some c) ts).2.2 = 0 := by
  intro ts
  induction ts with
  | nil => exact ⟨rfl, rfl⟩
  | cons t ts ih =>
    simp only [runGenerateV2, generateDeveloperTokenV2_cached]
    exact ⟨ih.1, by simp [ih.2]⟩

/-- Helper: the issuer state and resolution count of a call come from
`loadConfig` alone. -/
theorem generateDeveloperTokenV2_state (state : Option AppleMusicConfig)
    (env : Env) (fs : Fs) (now : Nat) :
    (generateDeveloperTokenV2 state env fs now).2 = (loadConfig state env fs).2 := by
  unfold generateDeveloperTokenV2
  rcases hl : loadConfig state env fs with ⟨r, st, k⟩
  cases r <;> simp

/-- Helper: a fresh `loadConfig` either fails without resolving (empty key
path, state stays empty) or resolves exactly once and caches. -/
theorem loadConfig_none_cases (env : Env) (fs : Fs) :
    ((loadConfig none env fs).2.1 = none ∧ (loadConfig none env fs).2.2 = 0) ∨
    ((∃ c, (loadConfig none env fs).2.1 = some c) ∧
      (loadConfig none env fs).2.2 = 1) := by
  simp only [loadConfig]
  by_cases hp : env.privateKeyPath = ""
  · rw [if_pos hp]
    exact Or.inl ⟨rfl, rfl⟩
  · rw [if_neg hp]
    rcases hm : missingFields
        { keyId := env.keyId, teamId := env.teamId
          privateKey := resolveKeyMaterial fs env.privateKeyPath
          issuer := env.issuerId } with _ | ⟨f, fsx⟩
    · simp only [hm]
      exact Or.inr ⟨⟨_, rfl⟩, trivial⟩
    · simp only [hm]
      exact Or.inr ⟨⟨_, rfl⟩, trivial⟩

/-- Helper: an `ok` result of `generateDeveloperTokenV2` carries a claim set
built from the call's own time. -/
theorem generateDeveloperTokenV2_fresh (state : Option AppleMusicConfig)
    (env : Env) (fs : Fs) (now : Nat) (tok : DeveloperToken)
    (h : (generateDeveloperTokenV2 state env fs now).1 = .ok tok) :
    tok.iat = now ∧ tok.exp = now + sixMonthsSeconds := by
  unfold generateDeveloperTokenV2 at h
  rcases hl : loadConfig state env fs with ⟨r, st, k⟩
  rw [hl] at h
  cases r with
  | error e => simp at h
  | ok config =>
    simp only [Except.ok.injEq] at h
    rw [← h]
    exact ⟨rfl, rfl⟩

/-- Helper: over a whole second-revision run from any starting state, every
issued token's `iat`/`exp` come from that call's time. -/
theorem runGenerateV2_fresh (env : Env) (fs : Fs) :
    ∀ (ts : List Nat) (state : Option AppleMusicConfig),
      List.Forall₂
        (fun (r : Except String DeveloperToken) (t : Nat) =>
          ∀ tok, r = .ok tok → tok.iat = t ∧ tok.exp = t + sixMonthsSeconds)
        (runGenerateV2 env fs state ts).1 ts := by
  intro ts
  induction ts with
  | nil => intro state; exact List.Forall₂.nil
  | cons t ts ih =>
    intro state
    simp only [runGenerateV2]
    refine List.Forall₂.cons ?_ (ih _)
    intro tok h
    exact generateDeveloperTokenV2_fresh state env fs t tok h

/-- Helper: starting from an uninitialized singleton, a whole second-revision
run resolves the key at most once. -/
theorem runGenerateV2_resolutions_le_one (env : Env) (fs : Fs) :
    ∀ ts : List Nat, (runGenerateV2 env fs none ts).2.2 ≤ 1 := by
  intro ts
  induction ts with
  | nil => simp [runGenerateV2]
  | cons t ts ih =>
    simp only [runGenerateV2]
    have hst := generateDeveloperTokenV2_state none env fs t
    rcases loadConfig_none_cases env fs with ⟨h1, h2⟩ | ⟨⟨c, h1⟩, h2⟩
    · have e1 : (generateDeveloperTokenV2 none env fs t).2.1 = none := by
        rw [hst]; exact h1
      have e2 : (generateDeveloperTokenV2 none env fs t).2.2 = 0 := by
        rw [hst]; exact h2
      rw [e1, e2]
      simpa using ih
    · have e1 : (generateDeveloperTokenV2 none env fs t).2.1 = some c := by
        rw [hst]; exact h1
      have e2 : (generateDeveloperTokenV2 none env fs t).2.2 = 1 := by
        rw [hst]; exact h2
      rw [e1, e2]
      have hc := (runGenerateV2_cached env fs c ts).2
      omega

/-- C3 counterexample: the first revision's `generateDeveloperToken()` calls
`getPrivateKey()` — `fs.existsSync` plus `fs.readFileSync` — on every
invocation. Two calls on the singleton resolve the key material twice,
refuting "resolved at most once per process lifetime". -/
theorem key_resolved_every_call_counterexample :
    (runGenerateV1 cfgV1Ex fsEx [1000, 2000]).2 = 2 ∧
    ¬ (runGenerateV1 cfgV1Ex fsEx [1000, 2000]).2 ≤ 1 :=
  ⟨rfl, by decide⟩

/-- C3 amended: the `loadConfig`-based revision resolves the private key at
most once per process lifetime and reuses the cached configuration on every
later call, and both revisions recompute `iat`/`exp` fresh from the call's
current time — but the `getPrivateKey`-based revision re-resolves the key on
every single call (exactly once per call). -/
theorem key_resolution_cached_and_claims_fresh
    (env : Env) (fs : Fs) (ts : List Nat) :
    (runGenerateV2 env fs none ts).2.2 ≤ 1 ∧
    (∀ c : AppleMusicConfig,
      (runGenerateV2 env fs (some c) ts).2.2 = 0 ∧
      (runGenerateV2 env fs (some c) ts).2.1 = some c) ∧
    (∀ state : Option AppleMusicConfig,
      List.Forall₂
        (fun (r : Except String DeveloperToken) (t : Nat) =>
          ∀ tok, r = .ok tok → tok.iat = t ∧ tok.exp = t + sixMonthsSeconds)
        (runGenerateV2 env fs state ts).1 ts) ∧
    (∀ (cfg : AppleMusicConfigV1) (fs1 : Fs) (t : Nat),
      (generateDeveloperTokenV1 cfg fs1 t).1.iat = t ∧
      (generateDeveloperTokenV1 cfg fs1 t).1.exp = t + sixMonthsSeconds ∧
      (generateDeveloperTokenV1 cfg fs1 t).2 = 1) := by
  refine ⟨runGenerateV2_resolutions_le_one env fs ts, ?_, ?_, ?_⟩
  · intro c
    exact ⟨(runGenerateV2_cached env fs c ts).2, (runGenerateV2_cached env fs c ts).1⟩
  · intro state
    exact runGenerateV2_fresh env fs ts state
  · intro cfg fs1 t
    exact ⟨rfl, rfl, rfl⟩

/-- Witness for `key_resolution_cached_and_claims_fresh` at a concrete
environment, filesystem and two call times. -/
theorem key_resolution_cached_and_claims_fresh_witness :
    (runGenerateV2 envEx fsEx none [10, 20]).2.2 ≤ 1 ∧
    (∀ c : AppleMusicConfig,
      (runGenerateV2 envEx fsEx (some c) [10, 20]).2.2 = 0 ∧
      (runGenerateV2 envEx fsEx (some c) [10, 20]).2.1 = some c) ∧
    (∀ state : Option AppleMusicConfig,
      List.Forall₂
        (fun (r : Except String DeveloperToken) (t : Nat) =>
          ∀ tok, r = .ok tok → tok.iat = t ∧ tok.exp = t + sixMonthsSeconds)
        (runGenerateV2 envEx fsEx state [10, 20]).1 [10, 20]) ∧
    (∀ (cfg : AppleMusicConfigV1) (fs1 : Fs) (t : Nat),
      (generateDeveloperTokenV1 cfg fs1 t).1.iat = t ∧
      (generateDeveloperTokenV1 cfg fs1 t).1.exp = t + sixMonthsSeconds ∧
      (generateDeveloperTokenV1 cfg fs1 t).2 = 1) :=
  key_resolution_cached_and_claims_fresh envEx fsEx [10, 20]

end Amplifier
